import Mathlib

/-!
Shallow embedding of the climatological aggregation planner of
`dp/generate_climos.py` (pacificclimate/climate-explorer-data-prep).

The external statistics tool (cdo) is modelled symbolically: each cdo
invocation `getattr(cdo, op)(input=data)` becomes the term
`Dataset.cdoOp op data`, so a "dataset" is the syntax tree of cdo
operations applied to the input file.  Exceptions raised by the Python
code become `Except.error` values of the inductive `ClimoErr`, one
constructor per raise site; `warnings.warn(msg)` calls are collected as
a list of message strings.  File moves, metadata rewriting and logging
(which do not affect which plan is constructed) are omitted.
-/

deriving instance DecidableEq for Except

set_option maxRecDepth 8000

namespace GenerateClimos

/-- Symbolic datasets: the input file, or the result of a named cdo
operator applied to another dataset (`getattr(cdo, op)(input=data)`). -/
inductive Dataset where
  | source : Dataset
  | cdoOp (op : String) (input : Dataset) : Dataset
deriving DecidableEq

/-- Exceptions raised by `generate_climos.py`, one constructor per raise
site, carrying the dynamic data interpolated into the Python message. -/
inductive ClimoErr where
  | unsupportedVariable (name : String) : ClimoErr
  | mixedCategories : ClimoErr
  | nonAggregatable : ClimoErr
  | unsupportedOperation (op : String) : ClimoErr
  | alreadyClimatologies : ClimoErr
  | keyErr (key : String) : ClimoErr
deriving DecidableEq

/-- Python str.format on a template, over the character list: each
occurrence of an open-brace/close-brace placeholder pair is replaced by
the next positional argument.  (The template used by the warning in
`climo_outputs` contains printf-style percent-s markers and no brace
placeholders, so format returns it unchanged and its arguments are
dropped -- that is the behaviour of CPython and is modelled exactly.) -/
def format_chars : List Char → List String → List Char
  | [], _ => []
  | '\x7b' :: '\x7d' :: rest, a :: args => a.data ++ format_chars rest args
  | '\x7b' :: '\x7d' :: rest, [] => format_chars rest []
  | c :: rest, args => c :: format_chars rest args

/-- Python str.format lifted to strings. -/
def str_format (template : String) (args : List String) : String :=
  String.mk (format_chars template.data args)

/-- The warning template of `climo_outputs` (the two adjacent Python
string literals, concatenated).  Note the printf-style markers. -/
def no_overlap_template : String :=
  "None of the selected output resolutions %s are computable from a file with %s temporal resolution"

/-- The warning message issued by `climo_outputs` when no requested
resolution is producible: the template formatted with the joined
requested resolutions and the native resolution (lines 392-397). -/
def no_overlap_warning (output_resolutions : List String)
    (time_resolution : String) : String :=
  str_format no_overlap_template
    [String.intercalate " ," output_resolutions, time_resolution]

/-- The `variable_types` classification dict of `create_climo_files`
(lines 265-322), as an association list in source order. -/
def variable_types : List (String × String) :=
  [("tasmin", "point"),
   ("tasmax", "point"),
   ("pr", "point"),
   ("BASEFLOW", "point"),
   ("EVAP", "point"),
   ("GLAC_AREA_BAND", "point"),
   ("GLAC_MBAL_BAND", "point"),
   ("GLAC_OUTFLOW", "point"),
   ("PET_NATVEG", "point"),
   ("PREC", "point"),
   ("RAINF", "point"),
   ("RUNOFF", "point"),
   ("SNOW_MELT", "point"),
   ("SOIL_MOIST_TOT", "point"),
   ("SWE", "point"),
   ("SWE_BAND", "point"),
   ("TRANSP_VEG", "point"),
   ("streamflow", "point"),
   ("cddETCCDI", "duration"),
   ("csdiETCCDI", "duration"),
   ("cwdETCCDI", "duration"),
   ("dtrETCCDI", "point"),
   ("fdETCCDI", "count"),
   ("gslETCCDI", "duration"),
   ("idETCCDI", "count"),
   ("prcptotETCCDI", "count"),
   ("r10mmETCCDI", "count"),
   ("r1mmETCCDI", "count"),
   ("r20mmETCCDI", "count"),
   ("r95pETCCDI", "count"),
   ("r99pETCCDI", "count"),
   ("rx1dayETCCDI", "maximum"),
   ("rx5dayETCCDI", "maximum"),
   ("sdiiETCCDI", "point"),
   ("suETCCDI", "count"),
   ("tn10pETCCDI", "point"),
   ("tn90pETCCDI", "point"),
   ("tnnETCCDI", "minimum"),
   ("tnxETCCDI", "maximum"),
   ("trETCCDI", "count"),
   ("tx10pETCCDI", "point"),
   ("tx90pETCCDI", "point"),
   ("txnETCCDI", "minimum"),
   ("txxETCCDI", "maximum"),
   ("wsdiETCCDI", "duration"),
   ("cdd", "count"),
   ("fdd", "count"),
   ("gdd", "count"),
   ("hdd", "count"),
   ("prsn", "point")]

/-- The set comprehension of line 325-327: classify every dependent
variable name, raising KeyError (reported as the unsupported-variable
exception of line 329) at the first name absent from the table; the
result is the set of categories found, as a duplicate-free list. -/
def var_type_set : List String → Except ClimoErr (List String)
  | [] => .ok []
  | v :: vs =>
    match variable_types.lookup v with
    | none => .error (.unsupportedVariable v)
    | some t => do
      let ts ← var_type_set vs
      pure (if t ∈ ts then ts else t :: ts)

/-- Lines 324-333: the set of categories of the file's dependent
variables must have exactly one element ("Only one type of variable
allowed per file"); that element is the file's category. -/
def resolve_var_type (varnames : List String) : Except ClimoErr String := do
  let var_types ← var_type_set varnames
  if var_types.length = 1 then pure var_types.headI
  else throw .mixedCategories

/-- The `validate_operation` check (lines 881-891). -/
def validate_operation (operation : String) : Except ClimoErr Unit :=
  if operation ∈ ["mean", "std"] then pure ()
  else throw (.unsupportedOperation operation)

/-- The `climo_ops` dict of `climo_outputs` (lines 364-369): operators
producing a climatology at exactly the native resolution. -/
def climo_ops (operation : String) : List (String × List (String × String)) :=
  [("daily", []),
   ("monthly", [("monthly", "ymon" ++ operation)]),
   ("seasonal", [("seasonal", "yseas" ++ operation)]),
   ("yearly", [("yearly", "tim" ++ operation)])]

/-- The `aggregate_climo_ops` dict (lines 370-379): operators producing
climatologies at resolutions coarser than native. -/
def aggregate_climo_ops (operation : String) :
    List (String × List (String × String)) :=
  [("daily",
    [("monthly", "ymon" ++ operation),
     ("seasonal", "yseas" ++ operation),
     ("yearly", "tim" ++ operation)]),
   ("monthly",
    [("seasonal", "yseas" ++ operation), ("yearly", "tim" ++ operation)]),
   ("seasonal", [("yearly", "tim" ++ operation)]),
   ("yearly", [])]

/-- The inner function `climo_outputs` (lines 346-407): returns the cdo
climatology outputs for one input dataset, together with any warnings
issued.  With `aggregate = false` only same-resolution climatologies are
produced; a daily dataset then raises (lines 359-362).  The dict update
of line 382 appends the aggregate operators (the key sets of the two
dicts are disjoint for every resolution, so append equals update).  If
no requested resolution is available, the warning of lines 392-397 is
issued and the empty list returned.  An unknown time resolution raises
KeyError at the dict subscript of line 380. -/
def climo_outputs (time_resolution operation : String) (data : Dataset)
    (aggregate : Bool) (output_resolutions : List String) :
    Except ClimoErr (List Dataset × List String) :=
  if time_resolution = "daily" ∧ aggregate = false then
    throw .nonAggregatable
  else
    match (climo_ops operation).lookup time_resolution,
        (aggregate_climo_ops operation).lookup time_resolution with
    | some base, some ext =>
      let ops := if aggregate then base ++ ext else base
      let op_names := output_resolutions.filterMap (fun rez => ops.lookup rez)
      if op_names.isEmpty then
        .ok ([], [no_overlap_warning output_resolutions time_resolution])
      else
        .ok (op_names.map (fun op => Dataset.cdoOp op data), [])
    | _, _ => throw (.keyErr time_resolution)

/-- The combining-statistic dict of `generate_aggregates` (line 597). -/
def aggregator_table : List (String × String) :=
  [("count", "sum"), ("maximum", "max"), ("minimum", "min")]

/-- The `generate_aggregates` function (lines 578-610): builds the dict
of aggregated datasets, keyed by resolution, in Python dict insertion
order.  Every aggregate is computed by a cdo call directly on `data`
(the native-resolution dataset), using the combining statistic of the
variable category. -/
def generate_aggregates (data : Dataset) (time_resolution var_type : String) :
    Except ClimoErr (List (String × Dataset)) :=
  match aggregator_table.lookup var_type with
  | none => throw (.keyErr var_type)
  | some aggr =>
    let a0 : List (String × Dataset) :=
      if time_resolution ≠ "daily" then [(time_resolution, data)] else []
    let a1 :=
      if time_resolution ∈ ["daily", "monthly", "seasonal"] then
        a0 ++ [("yearly", Dataset.cdoOp ("year" ++ aggr) data)]
      else a0
    let a2 :=
      if time_resolution ∈ ["daily", "monthly"] then
        a1 ++ [("seasonal", Dataset.cdoOp ("seas" ++ aggr) data)]
      else a1
    let a3 :=
      if time_resolution = "daily" then
        a2 ++ [("monthly", Dataset.cdoOp ("mon" ++ aggr) data)]
      else a2
    pure a3

/-- The temporal subset of line 338: `cdo.seldate(..., input=input_file)`. -/
def temporal_subset : Dataset := Dataset.cdoOp "seldate" Dataset.source

/-- The plan constructed by `create_climo_files` before post-processing:
the climatology output datasets (`climo_files`), the warnings issued
while constructing them, and the intermediate aggregate datasets
(the `aggregations` dict; empty for point and duration files). -/
structure ClimoPlan where
  climo_files : List Dataset
  warnings : List String
  aggregations : List (String × Dataset)
deriving DecidableEq

/-- The per-category branch of `create_climo_files` (lines 410-445):
point files are handled by `climo_outputs` with aggregation enabled;
count/maximum/minimum files first build explicit aggregates with
`generate_aggregates` and then call `climo_outputs` without aggregation
on each of them, in dict order, extending `climo_files`; duration files
call `climo_outputs` without aggregation on the native data only. -/
def climo_files_for_type (var_type operation time_resolution : String)
    (output_resolutions : List String) : Except ClimoErr ClimoPlan := do
  if var_type = "point" then
    let (files, warns) ← climo_outputs time_resolution operation
      temporal_subset true output_resolutions
    pure ⟨files, warns, []⟩
  else if var_type ∈ ["count", "maximum", "minimum"] then
    let aggregations ← generate_aggregates temporal_subset
      time_resolution var_type
    let results ← aggregations.mapM (fun p =>
      climo_outputs p.1 operation p.2 false output_resolutions)
    pure ⟨(results.map Prod.fst).flatten, (results.map Prod.snd).flatten,
      aggregations⟩
  else if var_type = "duration" then
    let (files, warns) ← climo_outputs time_resolution operation
      temporal_subset false output_resolutions
    pure ⟨files, warns, []⟩
  else throw (.keyErr var_type)

/-- The plan-constructing portion of `create_climo_files` (lines
138-445): reject files that already contain climatologies (line 228),
validate the cdo operation (line 231), classify the dependent variables
(lines 324-333), then build the climatology outputs per category. -/
def create_climo_files (is_multi_year : Bool) (operation : String)
    (dependent_varnames : List String) (time_resolution : String)
    (output_resolutions : List String) : Except ClimoErr ClimoPlan := do
  if is_multi_year then throw .alreadyClimatologies
  validate_operation operation
  let var_type ← resolve_var_type dependent_varnames
  climo_files_for_type var_type operation time_resolution output_resolutions

/-- The facts about one input file that the batch driver reads:
whether opening it succeeds (`CFDataset(filepath)` raising OSError is
caught), its climatological periods, and the inputs forwarded to
`create_climo_files`. -/
structure InputFile where
  readable : Bool
  climo_periods : List String
  is_multi_year : Bool
  dependent_varnames : List String
  time_resolution : String

/-- The `input_check` function (lines 42-70): an unreadable file, or a
file with no standard climatological period among those requested,
yields no periods to process (the function logs and returns an empty
period list); otherwise the matching periods are returned. -/
def input_check (f : InputFile) (climo : List String) : Option (List String) :=
  if f.readable = false then none
  else
    let periods := f.climo_periods.filter (fun p => p ∈ climo)
    if periods.isEmpty then none else some periods

/-- The `generate_climos` function (lines 107-135): run `input_check`,
then call `create_climo_files` once per matching period.  An exception
raised by `create_climo_files` propagates out of the loop. -/
def generate_climos (f : InputFile) (climo : List String)
    (operation : String) (resolutions : List String) :
    Except ClimoErr (List ClimoPlan) :=
  match input_check f climo with
  | none => pure []
  | some periods =>
    periods.mapM (fun _ =>
      create_climo_files f.is_multi_year operation f.dependent_varnames
        f.time_resolution resolutions)

/-- The `main` function of `dp/scripts/generate_climos.py` (lines
17-27): a bare for-loop calling `generate_climos` on each input file,
with no exception handling around the loop body. -/
def main (filepaths : List InputFile) (climo : List String)
    (operation : String) (resolutions : List String) :
    Except ClimoErr (List (List ClimoPlan)) :=
  filepaths.mapM (fun f => generate_climos f climo operation resolutions)

/-! ## Helper lemmas -/

theorem validate_operation_ok (operation : String)
    (hop : operation ∈ ["mean", "std"]) :
    validate_operation operation = pure () := by
  simp [validate_operation, hop]

theorem create_climo_files_ok_eq (operation : String)
    (hop : operation ∈ ["mean", "std"]) (varnames : List String)
    (vt : String) (hvt : resolve_var_type varnames = .ok vt)
    (tr : String) (reqs : List String) :
    create_climo_files false operation varnames tr reqs =
      climo_files_for_type vt operation tr reqs := by
  simp [create_climo_files, validate_operation_ok operation hop, hvt,
    Bind.bind, Except.bind, Pure.pure, Except.pure]

theorem create_climo_files_resolve_err (operation : String)
    (hop : operation ∈ ["mean", "std"]) (varnames : List String)
    (e : ClimoErr) (hvt : resolve_var_type varnames = .error e)
    (tr : String) (reqs : List String) :
    create_climo_files false operation varnames tr reqs = .error e := by
  simp [create_climo_files, validate_operation_ok operation hop, hvt,
    Bind.bind, Except.bind, Pure.pure, Except.pure]


/-! ## Claim theorems -/

/-- C10: For every input whose `is_multi_year` flag is set, the plan
construction rejects the file with the already-contains-climatologies
exception (line 228-229), whatever the operation, the dependent
variables, the native resolution and the requested resolutions: the
check precedes operation validation, variable classification, plan
construction, and every cdo invocation, so no output is produced. -/
theorem c10_multi_year_input_rejected_first (operation : String)
    (varnames : List String) (time_resolution : String)
    (output_resolutions : List String) :
    create_climo_files true operation varnames time_resolution
      output_resolutions = .error .alreadyClimatologies := rfl

/-- C4: classification of variable names is total and deterministic on
the `variable_types` table (every entry looks up to its own category),
and any name outside the table makes the whole-file classification, and
with it the whole plan construction, fail with the unsupported-variable
error naming that variable (line 329), before any output is produced. -/
theorem c4_classification_total_unsupported_halts (name : String)
    (hname : variable_types.lookup name = none) :
    (∀ p ∈ variable_types, variable_types.lookup p.1 = some p.2) ∧
    resolve_var_type [name] = .error (.unsupportedVariable name) ∧
    ∀ operation ∈ ["mean", "std"], ∀ time_resolution output_resolutions,
      create_climo_files false operation [name] time_resolution
        output_resolutions = .error (.unsupportedVariable name) := by
  have hres : resolve_var_type [name] = .error (.unsupportedVariable name) := by
    simp [resolve_var_type, var_type_set, hname, Bind.bind, Except.bind]
  refine ⟨by decide, hres, ?_⟩
  intro operation hop time_resolution output_resolutions
  exact create_climo_files_resolve_err operation hop [name] _ hres
    time_resolution output_resolutions

/-- C4 witness: the name foo is not in the table, and classifying a file
containing it fails with the unsupported-variable error naming it. -/
theorem c4_witness :
    variable_types.lookup "foo" = none ∧
    resolve_var_type ["foo"] = .error (.unsupportedVariable "foo") :=
  ⟨by decide, (c4_classification_total_unsupported_halts "foo" (by decide)).2.1⟩

/-- C5: resolving a file category returns the unique category when the
category set of the dependent variables is a singleton, and raises the
mixed-categories error ("Only one type of variable allowed per file",
lines 331-332) when it has zero or at least two elements; in particular
tasmax with pr resolves to point, and prcptotETCCDI with tasmax fails. -/
theorem c5_resolve_file_category (varnames : List String)
    (cats : List String) (hc : var_type_set varnames = .ok cats) :
    (cats.length = 1 → resolve_var_type varnames = .ok cats.headI) ∧
    (cats.length ≠ 1 → resolve_var_type varnames = .error .mixedCategories) ∧
    resolve_var_type ["tasmax", "pr"] = .ok "point" ∧
    resolve_var_type ["prcptotETCCDI", "tasmax"] = .error .mixedCategories ∧
    resolve_var_type [] = .error .mixedCategories := by
  refine ⟨?_, ?_, by decide, by decide, by decide⟩
  · intro h1
    simp only [resolve_var_type, hc, h1, Bind.bind, Except.bind, if_pos]
    rfl
  · intro h1
    simp only [resolve_var_type, hc, Bind.bind, Except.bind, if_neg h1]
    rfl

/-- C5 witness: instantiation at the two-variable point file. -/
theorem c5_witness :
    var_type_set ["tasmax", "pr"] = .ok ["point"] ∧
    resolve_var_type ["tasmax", "pr"] = .ok "point" := by
  refine ⟨by decide, ?_⟩
  have h := (c5_resolve_file_category ["tasmax", "pr"] ["point"] (by decide)).1
  exact h (by decide)

/-- C7: for a count file (fdETCCDI) at daily native resolution with only
yearly requested, the plan has exactly one climatology output: the
yearly aggregate is built with the category combining statistic sum
(`cdo.yearsum`), and the climatological operation is applied exactly
once, at yearly resolution, on that aggregate (`cdo.tim<operation>`). -/
theorem c7_count_daily_yearly_single_entry (operation : String)
    (hop : operation ∈ ["mean", "std"]) :
    create_climo_files false operation ["fdETCCDI"] "daily" ["yearly"] =
      .ok ⟨[.cdoOp ("tim" ++ operation) (.cdoOp "yearsum" temporal_subset)],
           [no_overlap_template, no_overlap_template],
           [("yearly", .cdoOp "yearsum" temporal_subset),
            ("seasonal", .cdoOp "seassum" temporal_subset),
            ("monthly", .cdoOp "monsum" temporal_subset)]⟩ := by
  fin_cases hop <;> decide

/-- C7 witness: instantiation at the mean operation. -/
theorem c7_witness :
    "mean" ∈ ["mean", "std"] ∧
    create_climo_files false "mean" ["fdETCCDI"] "daily" ["yearly"] =
      .ok ⟨[.cdoOp "timmean" (.cdoOp "yearsum" temporal_subset)],
           [no_overlap_template, no_overlap_template],
           [("yearly", .cdoOp "yearsum" temporal_subset),
            ("seasonal", .cdoOp "seassum" temporal_subset),
            ("monthly", .cdoOp "monsum" temporal_subset)]⟩ :=
  ⟨by decide, c7_count_daily_yearly_single_entry "mean" (by decide)⟩

/-- C8: for a point file (tasmax) at daily native resolution with all of
monthly, seasonal and yearly requested, the plan has exactly three
climatology outputs, one per requested resolution, each applying the
resolution-aware climatological operator (`ymon`, `yseas`, `tim`
prefixed with the caller operation) directly to the temporal subset: no
intermediate aggregate and no separate combining statistic appears. -/
theorem c8_point_daily_three_entries (operation : String)
    (hop : operation ∈ ["mean", "std"]) :
    create_climo_files false operation ["tasmax"] "daily"
      ["monthly", "seasonal", "yearly"] =
      .ok ⟨[.cdoOp ("ymon" ++ operation) temporal_subset,
            .cdoOp ("yseas" ++ operation) temporal_subset,
            .cdoOp ("tim" ++ operation) temporal_subset], [], []⟩ := by
  fin_cases hop <;> decide

/-- C8 witness: instantiation at the mean operation. -/
theorem c8_witness :
    "mean" ∈ ["mean", "std"] ∧
    create_climo_files false "mean" ["tasmax"] "daily"
      ["monthly", "seasonal", "yearly"] =
      .ok ⟨[.cdoOp "ymonmean" temporal_subset,
            .cdoOp "yseasmean" temporal_subset,
            .cdoOp "timmean" temporal_subset], [], []⟩ :=
  ⟨by decide, c8_point_daily_three_entries "mean" (by decide)⟩
/-- C1 counterexample: the claim says a duration file (cddETCCDI) with
seasonal native resolution and yearly requested raises the
non-aggregatable error; the code instead returns successfully with an
empty plan and the no-overlap warning, because the duration branch only
filters the requested resolutions and the sole raise site of
`climo_outputs` (lines 359-362) fires for daily input data alone. -/
theorem c1_counterexample_duration_seasonal_yearly_no_raise :
    create_climo_files false "mean" ["cddETCCDI"] "seasonal" ["yearly"] =
      .ok ⟨[], [no_overlap_template], []⟩ ∧
    create_climo_files false "mean" ["cddETCCDI"] "seasonal" ["yearly"] ≠
      .error .nonAggregatable := by decide

/-- C3: a maximum file (txxETCCDI) at monthly native resolution with
only daily requested yields zero climatology outputs and recoverable
warnings, as the claim says; but every warning message equals the raw
template verbatim -- the code formats a percent-s template with
str.format, which substitutes nothing -- so the message contains neither
the requested resolution daily nor the native resolution monthly,
contradicting the claim that the warning names them. -/
theorem c3_empty_overlap_warning_lacks_resolutions :
    create_climo_files false "mean" ["txxETCCDI"] "monthly" ["daily"] =
      .ok ⟨[], [no_overlap_template, no_overlap_template, no_overlap_template],
           [("monthly", temporal_subset),
            ("yearly", .cdoOp "yearmax" temporal_subset),
            ("seasonal", .cdoOp "seasmax" temporal_subset)]⟩ ∧
    no_overlap_warning ["daily"] "monthly" = no_overlap_template ∧
    ¬ ("daily".data <:+: no_overlap_template.data) ∧
    ¬ ("monthly".data <:+: no_overlap_template.data) := by decide

/-- C6 counterexample: for a count file (fdETCCDI) at daily native
resolution with only monthly requested, no resolution lies strictly
between daily and monthly, yet the plan materializes yearly and seasonal
intermediates as well -- `generate_aggregates` ignores the requested
resolutions entirely -- and every intermediate, the yearly one included,
is computed directly from the daily temporal subset rather than from the
next-finer level. -/
theorem c6_counterexample_unrequested_intermediates :
    create_climo_files false "mean" ["fdETCCDI"] "daily" ["monthly"] =
      .ok ⟨[.cdoOp "ymonmean" (.cdoOp "monsum" temporal_subset)],
           [no_overlap_template, no_overlap_template],
           [("yearly", .cdoOp "yearsum" temporal_subset),
            ("seasonal", .cdoOp "seassum" temporal_subset),
            ("monthly", .cdoOp "monsum" temporal_subset)]⟩ := by decide

/-- C9 counterexample: with a batch of two readable files where the
first contains an unsupported variable, the whole batch fails with that
file's error and no result is produced for the second file, although the
second file alone processes successfully -- the per-file loop of `main`
has no exception handling, so a fatal condition aborts the batch rather
than only the offending file. -/
theorem c9_counterexample_batch_aborts :
    main [⟨true, ["6190"], false, ["unknown_var"], "daily"⟩,
          ⟨true, ["6190"], false, ["tasmax"], "daily"⟩]
        ["6190"] "mean" ["yearly"] =
      .error (.unsupportedVariable "unknown_var") ∧
    main [⟨true, ["6190"], false, ["tasmax"], "daily"⟩]
        ["6190"] "mean" ["yearly"] =
      .ok [[⟨[.cdoOp "timmean" temporal_subset], [], []⟩]] := by decide

/-- C9 amended: an exception raised while processing any file of a batch
propagates out of the loop in `main` and aborts the remaining files;
only input checks that do not raise -- an unreadable file, or a file
with no matching climatological period -- are skipped with the batch
continuing (they contribute an empty result), as the concrete
unreadable-then-good batch shows. -/
theorem c9_amended_error_aborts_batch :
    (∀ (f : InputFile) (fs : List InputFile) (climo : List String)
        (operation : String) (resolutions : List String) (e : ClimoErr),
        generate_climos f climo operation resolutions = .error e →
        main (f :: fs) climo operation resolutions = .error e) ∧
    (∀ (f : InputFile) (fs : List InputFile) (climo : List String)
        (operation : String) (resolutions : List String),
        input_check f climo = none →
        main (f :: fs) climo operation resolutions =
          (main fs climo operation resolutions).map (fun rs => [] :: rs)) ∧
    main [⟨false, ["6190"], false, ["tasmax"], "daily"⟩,
          ⟨true, ["6190"], false, ["tasmax"], "daily"⟩]
        ["6190"] "mean" ["yearly"] =
      .ok [[], [⟨[.cdoOp "timmean" temporal_subset], [], []⟩]] := by
  refine ⟨?_, ?_, by decide⟩
  · intro f fs climo operation resolutions e h
    show (f :: fs).mapM
        (fun f => generate_climos f climo operation resolutions) = .error e
    rw [List.mapM_cons, h]
    rfl
  · intro f fs climo operation resolutions h
    show (f :: fs).mapM
        (fun f => generate_climos f climo operation resolutions) =
      ((fs.mapM (fun f => generate_climos f climo operation resolutions)).map
        (fun rs => [] :: rs))
    rw [List.mapM_cons]
    simp only [generate_climos, h]
    cases hfs : fs.mapM
        (fun f => generate_climos f climo operation resolutions) <;>
      simp [hfs, Except.map, Bind.bind, Except.bind, Pure.pure, Except.pure]

/-- C9 witness: a single-file batch whose file raises aborts with that
error via the first conjunct. -/
theorem c9_witness :
    generate_climos ⟨true, ["6190"], false, ["unknown_var"], "daily"⟩
        ["6190"] "mean" ["yearly"] =
      .error (.unsupportedVariable "unknown_var") ∧
    main [⟨true, ["6190"], false, ["unknown_var"], "daily"⟩]
        ["6190"] "mean" ["yearly"] =
      .error (.unsupportedVariable "unknown_var") :=
  ⟨by decide, c9_amended_error_aborts_batch.1 _ [] _ _ _ _ (by decide)⟩
theorem lookup_mem_values {α : Type} (k : String) (l : List (String × α))
    (v : α) (h : l.lookup k = some v) : v ∈ l.map Prod.snd := by
  induction l with
  | nil => simp [List.lookup] at h
  | cons p rest ih =>
    obtain ⟨a, b⟩ := p
    rw [List.lookup] at h
    split at h
    · cases h
      simp
    · simpa using Or.inr (ih h)

theorem aggregator_lookup_cases (vt aggr : String)
    (h : aggregator_table.lookup vt = some aggr) :
    (vt = "count" ∧ aggr = "sum") ∨ (vt = "maximum" ∧ aggr = "max") ∨
    (vt = "minimum" ∧ aggr = "min") := by
  have hmem := lookup_mem_values vt aggregator_table aggr h
  by_cases h1 : vt = "count"
  · subst h1
    simp [aggregator_table, List.lookup] at h
    exact Or.inl ⟨rfl, h.symm⟩
  by_cases h2 : vt = "maximum"
  · subst h2
    simp [aggregator_table, List.lookup] at h
    exact Or.inr (Or.inl ⟨rfl, h.symm⟩)
  by_cases h3 : vt = "minimum"
  · subst h3
    simp [aggregator_table, List.lookup] at h
    exact Or.inr (Or.inr ⟨rfl, h.symm⟩)
  have e1 : (vt == "count") = false := by simp [h1]
  have e2 : (vt == "maximum") = false := by simp [h2]
  have e3 : (vt == "minimum") = false := by simp [h3]
  simp [aggregator_table, List.lookup, e1, e2, e3] at h

theorem mapM_ok_mem {ε α β : Type} (g : α → Except ε β) (l : List α)
    (rs : List β) (h : l.mapM g = .ok rs) :
    ∀ r ∈ rs, ∃ a ∈ l, g a = .ok r := by
  induction l generalizing rs with
  | nil =>
    rw [List.mapM_nil] at h
    cases h
    simp
  | cons a t ih =>
    rw [List.mapM_cons] at h
    cases hga : g a with
    | error e =>
      rw [hga] at h
      simp [Bind.bind, Except.bind] at h
    | ok b =>
      rw [hga] at h
      simp only [Bind.bind, Except.bind] at h
      cases hmt : t.mapM g with
      | error e =>
        rw [hmt] at h
        simp at h
      | ok bs =>
        rw [hmt] at h
        have hrs : rs = b :: bs := by
          have := h
          simp only [Pure.pure, Except.pure] at this
          cases this
          rfl
        subst hrs
        intro r hr
        rcases List.mem_cons.mp hr with rfl | hr2
        · exact ⟨a, by simp, hga⟩
        · obtain ⟨a2, ha2, hga2⟩ := ih bs hmt r hr2
          exact ⟨a2, by simp [ha2], hga2⟩
theorem climo_outputs_noagg_files (tr operation : String) (data : Dataset)
    (reqs : List String) (files : List Dataset) (warns : List String)
    (h : climo_outputs tr operation data false reqs = .ok (files, warns)) :
    ∀ f ∈ files, ∃ co ∈ ["ymon" ++ operation, "yseas" ++ operation,
      "tim" ++ operation], f = Dataset.cdoOp co data := by
  unfold climo_outputs at h
  by_cases hd : tr = "daily"
  · rw [if_pos ⟨hd, rfl⟩] at h
    simp [throw, throwThe, MonadExceptOf.throw] at h
  rw [if_neg (by simp [hd])] at h
  split at h
  case _ base ext hbase hext =>
    have hbases := lookup_mem_values tr (climo_ops operation) base hbase
    simp only [climo_ops, List.map_cons, List.map_nil, List.mem_cons,
      List.not_mem_nil, or_false] at hbases
    simp only [Bool.false_eq_true, if_false] at h
    rcases hbases with hb | hb | hb | hb <;> subst hb <;> split at h <;>
      (simp only [Except.ok.injEq, Prod.mk.injEq] at h
       obtain ⟨rfl, rfl⟩ := h
       intro f hf
       first
       | (obtain ⟨nm, hnm, rfl⟩ := List.mem_map.mp hf
          obtain ⟨rez, hrez, hlook⟩ := List.mem_filterMap.mp hnm
          have hv := lookup_mem_values rez _ nm hlook
          simp only [List.map_cons, List.map_nil, List.mem_cons,
            List.not_mem_nil, or_false] at hv
          exact ⟨nm, by simp [hv], rfl⟩)
       | simp at hf)
  case _ => simp [throw, throwThe, MonadExceptOf.throw] at h
theorem generate_aggregates_shape (data : Dataset) (tr vt aggr : String)
    (haggr : aggregator_table.lookup vt = some aggr)
    (aggs : List (String × Dataset))
    (h : generate_aggregates data tr vt = .ok aggs) :
    ∀ p ∈ aggs, p.2 = data ∨
      p.2 = Dataset.cdoOp ("year" ++ aggr) data ∨
      p.2 = Dataset.cdoOp ("seas" ++ aggr) data ∨
      p.2 = Dataset.cdoOp ("mon" ++ aggr) data := by
  unfold generate_aggregates at h
  rw [haggr] at h
  simp only [Pure.pure] at h
  split_ifs at h <;>
    (simp only [Except.pure, Except.ok.injEq] at h
     subst h
     intro p hp
     simp only [List.mem_append, List.mem_cons, List.not_mem_nil,
       or_false, false_or, or_assoc] at hp
     rcases hp with rfl | rfl | rfl | rfl <;> simp)
theorem climo_files_for_type_agg_destruct (vt : String)
    (hvt : vt ∈ ["count", "maximum", "minimum"]) (operation tr : String)
    (reqs : List String) (plan : ClimoPlan)
    (h : climo_files_for_type vt operation tr reqs = .ok plan) :
    ∃ aggs results,
      generate_aggregates temporal_subset tr vt = .ok aggs ∧
      aggs.mapM (fun p => climo_outputs p.1 operation p.2 false reqs) =
        .ok results ∧
      plan = ⟨(results.map Prod.fst).flatten, (results.map Prod.snd).flatten,
        aggs⟩ := by
  have hvt2 : ¬ vt = "point" := by
    fin_cases hvt <;> decide
  unfold climo_files_for_type at h
  rw [if_neg hvt2, if_pos hvt] at h
  cases hgen : generate_aggregates temporal_subset tr vt with
  | error e =>
    rw [hgen] at h
    simp [Bind.bind, Except.bind] at h
  | ok aggs =>
    rw [hgen] at h
    simp only [Bind.bind, Except.bind] at h
    cases hmap : aggs.mapM
        (fun p => climo_outputs p.1 operation p.2 false reqs) with
    | error e =>
      rw [hmap] at h
      simp at h
    | ok results =>
      rw [hmap] at h
      refine ⟨aggs, results, rfl, hmap, ?_⟩
      simp only [Pure.pure, Except.pure, Except.ok.injEq] at h
      exact h.symm
/-- C2: for any file that resolves to a count, maximum or minimum
category (the categories of the combining-statistic table), any native
resolution and any requested resolutions, every successfully constructed
plan satisfies: each intermediate aggregate dataset is either the native
temporal subset itself or is built by a single cdo call whose operator
is a period prefix (year/seas/mon) followed by the category's own
combining statistic (sum, max or min respectively) -- never the caller's
climatological mean/std operator -- and every climatology output applies
the resolution-aware climatological operator (ymon/yseas/tim followed by
the caller's operation) exactly once, as the outermost operation, to one
of the intermediate aggregates. -/
theorem c2_aggregates_use_category_statistic (operation : String)
    (hop : operation ∈ ["mean", "std"]) (varnames : List String)
    (var_type : String) (hvt : resolve_var_type varnames = .ok var_type)
    (aggr : String) (haggr : aggregator_table.lookup var_type = some aggr)
    (tr : String) (reqs : List String) (plan : ClimoPlan)
    (hplan : create_climo_files false operation varnames tr reqs = .ok plan) :
    aggr ∈ ["sum", "max", "min"] ∧
    (∀ p ∈ plan.aggregations, p.2 = temporal_subset ∨
        p.2 = Dataset.cdoOp ("year" ++ aggr) temporal_subset ∨
        p.2 = Dataset.cdoOp ("seas" ++ aggr) temporal_subset ∨
        p.2 = Dataset.cdoOp ("mon" ++ aggr) temporal_subset) ∧
    (∀ f ∈ plan.climo_files,
        ∃ co ∈ ["ymon" ++ operation, "yseas" ++ operation,
          "tim" ++ operation],
        ∃ d, (∃ r, (r, d) ∈ plan.aggregations) ∧ f = Dataset.cdoOp co d) := by
  have hcases := aggregator_lookup_cases var_type aggr haggr
  have hcat : var_type ∈ ["count", "maximum", "minimum"] := by
    rcases hcases with ⟨rfl, rfl⟩ | ⟨rfl, rfl⟩ | ⟨rfl, rfl⟩ <;> decide
  rw [create_climo_files_ok_eq operation hop varnames var_type hvt] at hplan
  obtain ⟨aggs, results, hgen, hmap, rfl⟩ :=
    climo_files_for_type_agg_destruct var_type hcat operation tr reqs plan
      hplan
  refine ⟨?_, ?_, ?_⟩
  · rcases hcases with ⟨rfl, rfl⟩ | ⟨rfl, rfl⟩ | ⟨rfl, rfl⟩ <;> decide
  · exact generate_aggregates_shape temporal_subset tr var_type aggr haggr
      aggs hgen
  · intro f hf
    simp only [List.mem_flatten, List.mem_map] at hf
    obtain ⟨l, ⟨res, hres, rfl⟩, hfl⟩ := hf
    obtain ⟨p, hp, hco⟩ := mapM_ok_mem _ aggs results hmap res hres
    have hfiles := climo_outputs_noagg_files p.1 operation p.2 reqs
      res.1 res.2 hco
    obtain ⟨co, hcomem, rfl⟩ := hfiles f hfl
    exact ⟨co, hcomem, p.2, ⟨p.1, hp⟩, rfl⟩
/-- C2 witness: instantiation at the count file fdETCCDI, daily native
resolution, yearly requested, mean operation: sum is the combining
statistic, every intermediate is a sum aggregate of the temporal subset,
and the single climatology output applies timmean to the yearly sum. -/
theorem c2_witness :
    resolve_var_type ["fdETCCDI"] = .ok "count" ∧
    ("sum" ∈ ["sum", "max", "min"] ∧
     (∀ p ∈ [("yearly", Dataset.cdoOp "yearsum" temporal_subset),
             ("seasonal", Dataset.cdoOp "seassum" temporal_subset),
             ("monthly", Dataset.cdoOp "monsum" temporal_subset)],
        p.2 = temporal_subset ∨
        p.2 = Dataset.cdoOp ("year" ++ "sum") temporal_subset ∨
        p.2 = Dataset.cdoOp ("seas" ++ "sum") temporal_subset ∨
        p.2 = Dataset.cdoOp ("mon" ++ "sum") temporal_subset) ∧
     (∀ f ∈ [Dataset.cdoOp ("tim" ++ "mean")
          (Dataset.cdoOp "yearsum" temporal_subset)],
        ∃ co ∈ ["ymon" ++ "mean", "yseas" ++ "mean", "tim" ++ "mean"],
        ∃ d, (∃ r, (r, d) ∈
              [("yearly", Dataset.cdoOp "yearsum" temporal_subset),
               ("seasonal", Dataset.cdoOp "seassum" temporal_subset),
               ("monthly", Dataset.cdoOp "monsum" temporal_subset)]) ∧
          f = Dataset.cdoOp co d)) :=
  ⟨by decide,
   c2_aggregates_use_category_statistic "mean" (by decide) ["fdETCCDI"]
     "count" (by decide) "sum" (by decide) "daily" ["yearly"]
     ⟨[Dataset.cdoOp ("tim" ++ "mean")
         (Dataset.cdoOp "yearsum" temporal_subset)],
      [no_overlap_template, no_overlap_template],
      [("yearly", Dataset.cdoOp "yearsum" temporal_subset),
       ("seasonal", Dataset.cdoOp "seassum" temporal_subset),
       ("monthly", Dataset.cdoOp "monsum" temporal_subset)]⟩ (by decide)⟩
theorem generate_aggregates_eval (vt aggr : String)
    (haggr : aggregator_table.lookup vt = some aggr) (data : Dataset)
    (tr : String) (aggs : List (String × Dataset))
    (h : generate_aggregates data tr vt = .ok aggs) :
    (tr = "daily" → aggs =
        [("yearly", Dataset.cdoOp ("year" ++ aggr) data),
         ("seasonal", Dataset.cdoOp ("seas" ++ aggr) data),
         ("monthly", Dataset.cdoOp ("mon" ++ aggr) data)]) ∧
    (tr = "monthly" → aggs =
        [("monthly", data),
         ("yearly", Dataset.cdoOp ("year" ++ aggr) data),
         ("seasonal", Dataset.cdoOp ("seas" ++ aggr) data)]) ∧
    (tr = "seasonal" → aggs =
        [("seasonal", data),
         ("yearly", Dataset.cdoOp ("year" ++ aggr) data)]) ∧
    (tr = "yearly" → aggs = [("yearly", data)]) := by
  unfold generate_aggregates at h
  rw [haggr] at h
  refine ⟨?_, ?_, ?_, ?_⟩ <;>
    (intro htr
     subst htr
     simp only [Pure.pure, Except.pure, Except.ok.injEq] at h
     rw [← h]
     simp)

/-- C6 amended: for count, maximum and minimum files, the plan
materializes intermediate datasets at every resolution coarser than the
native one, independently of which resolutions were requested, and each
intermediate is produced directly from the native-resolution temporal
subset with one cdo call using the category's combining statistic -- not
chained from the next-finer level; concretely, the intermediates dict is
fully determined per native resolution: for daily data the yearly,
seasonal and monthly aggregates; for monthly data the monthly native
passthrough plus the yearly and seasonal aggregates; for seasonal data
the seasonal passthrough plus the yearly aggregate; for yearly data the
yearly passthrough alone -- whatever the request. -/
theorem c6_amended_all_coarser_intermediates_from_native
    (operation : String) (hop : operation ∈ ["mean", "std"])
    (varnames : List String) (var_type : String)
    (hvt : resolve_var_type varnames = .ok var_type) (aggr : String)
    (haggr : aggregator_table.lookup var_type = some aggr)
    (tr : String) (reqs : List String) (plan : ClimoPlan)
    (hplan : create_climo_files false operation varnames tr reqs = .ok plan) :
    (∀ p ∈ plan.aggregations, p.2 = temporal_subset ∨
        p.2 = Dataset.cdoOp ("year" ++ aggr) temporal_subset ∨
        p.2 = Dataset.cdoOp ("seas" ++ aggr) temporal_subset ∨
        p.2 = Dataset.cdoOp ("mon" ++ aggr) temporal_subset) ∧
    (∀ (reqs2 : List String) (plan2 : ClimoPlan),
        create_climo_files false operation varnames tr reqs2 = .ok plan2 →
        plan2.aggregations = plan.aggregations) ∧
    (tr = "daily" → plan.aggregations =
        [("yearly", Dataset.cdoOp ("year" ++ aggr) temporal_subset),
         ("seasonal", Dataset.cdoOp ("seas" ++ aggr) temporal_subset),
         ("monthly", Dataset.cdoOp ("mon" ++ aggr) temporal_subset)]) ∧
    (tr = "monthly" → plan.aggregations =
        [("monthly", temporal_subset),
         ("yearly", Dataset.cdoOp ("year" ++ aggr) temporal_subset),
         ("seasonal", Dataset.cdoOp ("seas" ++ aggr) temporal_subset)]) ∧
    (tr = "seasonal" → plan.aggregations =
        [("seasonal", temporal_subset),
         ("yearly", Dataset.cdoOp ("year" ++ aggr) temporal_subset)]) ∧
    (tr = "yearly" → plan.aggregations = [("yearly", temporal_subset)]) := by
  have hcases := aggregator_lookup_cases var_type aggr haggr
  have hcat : var_type ∈ ["count", "maximum", "minimum"] := by
    rcases hcases with ⟨rfl, rfl⟩ | ⟨rfl, rfl⟩ | ⟨rfl, rfl⟩ <;> decide
  rw [create_climo_files_ok_eq operation hop varnames var_type hvt] at hplan
  obtain ⟨aggs, results, hgen, hmap, rfl⟩ :=
    climo_files_for_type_agg_destruct var_type hcat operation tr reqs plan
      hplan
  have heval := generate_aggregates_eval var_type aggr haggr temporal_subset
    tr aggs hgen
  refine ⟨?_, ?_, heval.1, heval.2.1, heval.2.2.1, heval.2.2.2⟩
  · exact generate_aggregates_shape temporal_subset tr var_type aggr haggr
      aggs hgen
  · intro reqs2 plan2 hplan2
    rw [create_climo_files_ok_eq operation hop varnames var_type hvt]
      at hplan2
    obtain ⟨aggs2, results2, hgen2, hmap2, rfl⟩ :=
      climo_files_for_type_agg_destruct var_type hcat operation tr reqs2
        plan2 hplan2
    rw [hgen] at hgen2
    cases hgen2
    rfl

/-- C6 witness: instantiation at the count file fdETCCDI, daily native
resolution with only monthly requested: the unrequested yearly and
seasonal intermediates are materialized anyway, all directly from the
temporal subset with sum. -/
theorem c6_witness :
    resolve_var_type ["fdETCCDI"] = .ok "count" ∧
    ((∀ p ∈ [("yearly", Dataset.cdoOp "yearsum" temporal_subset),
             ("seasonal", Dataset.cdoOp "seassum" temporal_subset),
             ("monthly", Dataset.cdoOp "monsum" temporal_subset)],
        p.2 = temporal_subset ∨
        p.2 = Dataset.cdoOp ("year" ++ "sum") temporal_subset ∨
        p.2 = Dataset.cdoOp ("seas" ++ "sum") temporal_subset ∨
        p.2 = Dataset.cdoOp ("mon" ++ "sum") temporal_subset) ∧
     (∀ (reqs2 : List String) (plan2 : ClimoPlan),
        create_climo_files false "mean" ["fdETCCDI"] "daily" reqs2 =
          .ok plan2 →
        plan2.aggregations =
          [("yearly", Dataset.cdoOp "yearsum" temporal_subset),
           ("seasonal", Dataset.cdoOp "seassum" temporal_subset),
           ("monthly", Dataset.cdoOp "monsum" temporal_subset)]) ∧
     ("daily" = "daily" →
        [("yearly", Dataset.cdoOp "yearsum" temporal_subset),
         ("seasonal", Dataset.cdoOp "seassum" temporal_subset),
         ("monthly", Dataset.cdoOp "monsum" temporal_subset)] =
          [("yearly", Dataset.cdoOp ("year" ++ "sum") temporal_subset),
           ("seasonal", Dataset.cdoOp ("seas" ++ "sum") temporal_subset),
           ("monthly", Dataset.cdoOp ("mon" ++ "sum") temporal_subset)]) ∧
     ("daily" = "monthly" →
        [("yearly", Dataset.cdoOp "yearsum" temporal_subset),
         ("seasonal", Dataset.cdoOp "seassum" temporal_subset),
         ("monthly", Dataset.cdoOp "monsum" temporal_subset)] =
          [("monthly", temporal_subset),
           ("yearly", Dataset.cdoOp ("year" ++ "sum") temporal_subset),
           ("seasonal", Dataset.cdoOp ("seas" ++ "sum") temporal_subset)]) ∧
     ("daily" = "seasonal" →
        [("yearly", Dataset.cdoOp "yearsum" temporal_subset),
         ("seasonal", Dataset.cdoOp "seassum" temporal_subset),
         ("monthly", Dataset.cdoOp "monsum" temporal_subset)] =
          [("seasonal", temporal_subset),
           ("yearly", Dataset.cdoOp ("year" ++ "sum") temporal_subset)]) ∧
     ("daily" = "yearly" →
        [("yearly", Dataset.cdoOp "yearsum" temporal_subset),
         ("seasonal", Dataset.cdoOp "seassum" temporal_subset),
         ("monthly", Dataset.cdoOp "monsum" temporal_subset)] =
          [("yearly", temporal_subset)])) :=
  ⟨by decide,
   c6_amended_all_coarser_intermediates_from_native "mean" (by decide)
     ["fdETCCDI"] "count" (by decide) "sum" (by decide) "daily" ["monthly"]
     ⟨[Dataset.cdoOp "ymonmean" (Dataset.cdoOp "monsum" temporal_subset)],
      [no_overlap_template, no_overlap_template],
      [("yearly", Dataset.cdoOp "yearsum" temporal_subset),
       ("seasonal", Dataset.cdoOp "seassum" temporal_subset),
       ("monthly", Dataset.cdoOp "monsum" temporal_subset)]⟩ (by decide)⟩
theorem climo_files_for_type_duration (operation tr : String)
    (reqs : List String) (files : List Dataset) (warns : List String)
    (h : climo_outputs tr operation temporal_subset false reqs =
      .ok (files, warns)) :
    climo_files_for_type "duration" operation tr reqs =
      .ok ⟨files, warns, []⟩ := by
  unfold climo_files_for_type
  rw [if_neg (by decide), if_neg (by decide), if_pos rfl, h]
  rfl

theorem climo_outputs_noagg_singleton (tr operation co : String)
    (hd : ¬ tr = "daily")
    (hbase : (climo_ops operation).lookup tr = some [(tr, co)])
    (ext : List (String × String))
    (hext : (aggregate_climo_ops operation).lookup tr = some ext)
    (data : Dataset) (reqs : List String) :
    (tr ∉ reqs →
        climo_outputs tr operation data false reqs =
          .ok ([], [no_overlap_warning reqs tr])) ∧
    (tr ∈ reqs →
        ∃ files, climo_outputs tr operation data false reqs =
            .ok (files, []) ∧
          files ≠ [] ∧ ∀ f ∈ files, f = Dataset.cdoOp co data) := by
  have hred : climo_outputs tr operation data false reqs =
      (if (reqs.filterMap
            (fun rez => List.lookup rez [(tr, co)])).isEmpty then
        .ok ([], [no_overlap_warning reqs tr])
      else
        .ok ((reqs.filterMap
            (fun rez => List.lookup rez [(tr, co)])).map
          (fun op => Dataset.cdoOp op data), [])) := by
    unfold climo_outputs
    rw [if_neg (by simp [hd]), hbase, hext]
    rfl
  constructor
  · intro hmem
    have hnames : reqs.filterMap (fun rez => List.lookup rez [(tr, co)]) =
        [] := by
      rw [List.filterMap_eq_nil_iff]
      intro a ha
      have hne : (a == tr) = false := by
        simp only [beq_eq_false_iff_ne, ne_eq]
        exact fun h2 => hmem (h2 ▸ ha)
      simp [List.lookup, hne]
    rw [hred, hnames]
    rfl
  · intro hmem
    have hco : co ∈ reqs.filterMap (fun rez => List.lookup rez [(tr, co)]) :=
      List.mem_filterMap.mpr ⟨tr, hmem, by simp [List.lookup]⟩
    have hne : reqs.filterMap (fun rez => List.lookup rez [(tr, co)]) ≠ [] :=
      fun h2 => by rw [h2] at hco; exact List.not_mem_nil co hco
    rw [hred, if_neg (by simpa [List.isEmpty_iff] using hne)]
    refine ⟨_, rfl, by simpa using hne, ?_⟩
    intro f hf
    obtain ⟨nm, hnm, rfl⟩ := List.mem_map.mp hf
    obtain ⟨rez, hrez, hlook⟩ := List.mem_filterMap.mp hnm
    have hv := lookup_mem_values rez _ nm hlook
    simp only [List.map_cons, List.map_nil, List.mem_cons,
      List.not_mem_nil, or_false] at hv
    rw [hv]

/-- C1 amended: for duration-category files the plan construction raises
(with the cannot-generate-non-aggregated-climatologies error) exactly
when the native resolution is daily, whatever resolutions are requested;
for every coarser native resolution (monthly, seasonal, yearly, the
resolutions whose same-resolution operator table entry is the singleton
keyed by that resolution) and every request set, construction never
raises: all requested resolutions other than the native one are silently
dropped, so if the native resolution is not requested the plan is empty
with the recoverable no-overlap warning, and if it is requested the plan
holds only same-resolution climatology outputs; in particular seasonal
native data with yearly requested yields the empty plan plus warning. -/
theorem c1_amended_duration_raises_only_for_daily (operation : String)
    (hop : operation ∈ ["mean", "std"]) (varnames : List String)
    (hdur : resolve_var_type varnames = .ok "duration") :
    (∀ output_resolutions,
        create_climo_files false operation varnames "daily"
          output_resolutions = .error .nonAggregatable) ∧
    (∀ tr ∈ ["monthly", "seasonal", "yearly"],
        ∃ co, (climo_ops operation).lookup tr = some [(tr, co)] ∧
          ∀ reqs : List String,
            (tr ∉ reqs →
              create_climo_files false operation varnames tr reqs =
                .ok ⟨[], [no_overlap_warning reqs tr], []⟩) ∧
            (tr ∈ reqs →
              ∃ files,
                create_climo_files false operation varnames tr reqs =
                  .ok ⟨files, [], []⟩ ∧ files ≠ [] ∧
                ∀ f ∈ files, f = Dataset.cdoOp co temporal_subset)) ∧
    create_climo_files false operation varnames "seasonal" ["yearly"] =
      .ok ⟨[], [no_overlap_template], []⟩ := by
  have heq := create_climo_files_ok_eq operation hop varnames "duration" hdur
  refine ⟨?_, ?_, ?_⟩
  · intro output_resolutions
    rw [heq]
    simp [climo_files_for_type, climo_outputs, Bind.bind, Except.bind]
  · intro tr htr
    have hget : ∃ co ext, ¬ tr = "daily" ∧
        (climo_ops operation).lookup tr = some [(tr, co)] ∧
        (aggregate_climo_ops operation).lookup tr = some ext := by
      fin_cases htr
      · exact ⟨"ymon" ++ operation,
          [("seasonal", "yseas" ++ operation),
           ("yearly", "tim" ++ operation)],
          by decide, by simp [climo_ops, List.lookup],
          by simp [aggregate_climo_ops, List.lookup]⟩
      · exact ⟨"yseas" ++ operation, [("yearly", "tim" ++ operation)],
          by decide, by simp [climo_ops, List.lookup],
          by simp [aggregate_climo_ops, List.lookup]⟩
      · exact ⟨"tim" ++ operation, [],
          by decide, by simp [climo_ops, List.lookup],
          by simp [aggregate_climo_ops, List.lookup]⟩
    obtain ⟨co, ext, hd, hbase, hext⟩ := hget
    refine ⟨co, hbase, ?_⟩
    intro reqs
    have hsing := climo_outputs_noagg_singleton tr operation co hd hbase
      ext hext temporal_subset reqs
    constructor
    · intro hmem
      rw [heq]
      exact climo_files_for_type_duration operation tr reqs []
        [no_overlap_warning reqs tr] (hsing.1 hmem)
    · intro hmem
      obtain ⟨files, hco, hne, hall⟩ := hsing.2 hmem
      refine ⟨files, ?_, hne, hall⟩
      rw [heq]
      exact climo_files_for_type_duration operation tr reqs files [] hco
  · rw [heq]
    fin_cases hop <;> decide

/-- C1 witness: a duration file at daily native resolution raises even
for a single requested resolution, and at monthly native resolution with
monthly not requested the plan is empty with the warning. -/
theorem c1_witness :
    resolve_var_type ["cddETCCDI"] = .ok "duration" ∧
    create_climo_files false "mean" ["cddETCCDI"] "daily" ["monthly"] =
      .error .nonAggregatable :=
  ⟨by decide, (c1_amended_duration_raises_only_for_daily "mean" (by decide)
      ["cddETCCDI"] (by decide)).1 ["monthly"]⟩

end GenerateClimos
